import Mathlib

set_option linter.unusedVariables false
set_option linter.unnecessarySeqFocus false

/-!
Shallow embedding of the deployment orchestrator of `f5xc-tops-job-workers`.

The embedded code:
* `src/udf_worker/function.py` — `update_deployment_state`, `process_insert`,
  `process_remove`, `lambda_handler`;
* `src/udf_helpers/cailab-post/function.py` — `_run_with_auth_retry`.

Modelling conventions:
* DynamoDB items are association lists from attribute names to attribute
  values (`{"S": ...}` / `{"N": ...}`).
* The deployment-state table is an association list from `depID` to items;
  DynamoDB `update_item` upserts, so the embedded update does too.
* External collaborators (the invoked Lambdas, the lab-configuration lookup
  `get_lab_info`, whose definition is not part of the repository sources)
  are parameters of the execution environment `Env`: each carries the
  outcome the collaborator would produce (`Except Err ...` — a thrown
  exception or a returned value).
* Python exceptions are modelled by `Except Err`; the store writes performed
  before an exception is raised are preserved (state threads through).
* Each run records a trace of effects: store writes and Lambda invocations.
* Wall-clock time is a `Nat` counter incremented at each store write.
-/

namespace Tops

/-- A DynamoDB attribute value: `{"S": s}` or `{"N": n}`. -/
inductive AttrVal where
  | S (s : String)
  | N (n : Nat)
deriving DecidableEq, Repr

/-- A DynamoDB item: attribute name to attribute value. -/
abbrev Item := List (String × AttrVal)

/-- Set (replace or add) an attribute of an item. -/
def setAttr (it : Item) (k : String) (v : AttrVal) : Item :=
  match it with
  | [] => [(k, v)]
  | (k2, v2) :: rest => if k2 = k then (k, v) :: rest else (k2, v2) :: setAttr rest k v

/-- Dictionary lookup of an attribute. -/
def lookupA : Item → String → Option AttrVal
  | [], _ => none
  | (k2, v) :: rest, k => if k2 = k then some v else lookupA rest k

/-- `item.get(k, {}).get("S")`: the string value of attribute `k`, if present
and string-typed. -/
def getS (it : Item) (k : String) : Option String :=
  match lookupA it k with
  | some (.S s) => some s
  | _ => none

/-- The deployment-state table: `depID` to item. -/
abbrev Store := List (String × Item)

/-- Dictionary lookup of a deployment record. -/
def lookupStore : Store → String → Option Item
  | [], _ => none
  | (d2, it) :: rest, d => if d2 = d then some it else lookupStore rest d

/-- Put (replace or add) the item stored under key `d`. -/
def setStore (s : Store) (d : String) (it : Item) : Store :=
  match s with
  | [] => [(d, it)]
  | (d2, it2) :: rest => if d2 = d then (d, it) :: rest else (d2, it2) :: setStore rest d it

/-- String attribute `k` of the record stored under `d` (none if the record
or the attribute is absent or not string-typed). -/
def getSrec (s : Store) (d k : String) : Option String :=
  getS ((lookupStore s d).getD []) k

/-- Exceptions the embedded Python can raise. -/
inductive Err where
  | keyError (k : String)
  | nameError (k : String)
  | runtimeError (msg : String)
deriving DecidableEq, Repr

/-- `str(e)` as used for the `details` text of failure writes. -/
def errStr : Err → String
  | .keyError k => "'" ++ k ++ "'"
  | .nameError k => "cannot access local variable '" ++ k ++ "'"
  | .runtimeError msg => msg

/-- `item[k]["S"]`: mandatory string attribute access; raises `KeyError`
when the attribute is absent or when it is not `{"S": ...}`. -/
def getSE (it : Item) (k : String) : Except Err String :=
  match lookupA it k with
  | some (.S s) => .ok s
  | some (.N _) => .error (.keyError "S")
  | none => .error (.keyError k)

/-- The parsed JSON payload an invoked Lambda returns:
`payload.get("statusCode")` and `payload.get("body")`. -/
structure ActionResult where
  statusCode : Option Int
  body : Option String
deriving DecidableEq, Repr

/-- The four Lambda functions the worker invokes (identified by the
environment-variable ARN used to call them). -/
inductive LambdaFn where
  | createNamespace
  | createUser
  | removeNamespace
  | removeUser
deriving DecidableEq, Repr

/-- One observable effect of a run: a deployment-state write (with the
arguments passed to `update_deployment_state`) or a Lambda invocation. -/
inductive Eff where
  | write (depID step status : String) (details : Option String)
  | invoke (fn : LambdaFn)
deriving DecidableEq, Repr

/-- `update_deployment_state(depID, step, status, details)`:
DynamoDB `update_item` (an upsert) setting attribute `step` to `status`,
`updated_at` to the current time, and `details` when the `details` argument
is truthy (Python `if details:` — `None` and `""` are both falsy). -/
def update_deployment_state (s : Store) (now : Nat) (depID step status : String)
    (details : Option String) : Store :=
  let item := (lookupStore s depID).getD []
  let item := setAttr item step (.S status)
  let item := setAttr item "updated_at" (.N now)
  let item :=
    match details with
    | some d => if d = "" then item else setAttr item "details" (.S d)
    | none => item
  setStore s depID item

/-- Run state: the deployment-state table, the clock, and the effect trace. -/
structure St where
  store : Store
  now : Nat
  trace : List Eff
deriving DecidableEq, Repr

/-- Perform one `update_deployment_state` call: write the store, advance the
clock, record the effect. -/
def doWrite (st : St) (depID step status : String) (details : Option String) : St :=
  { store := update_deployment_state st.store st.now depID step status details
    now := st.now + 1
    trace := st.trace ++ [Eff.write depID step status details] }

/-- Record a Lambda invocation in the trace. -/
def doInvoke (st : St) (fn : LambdaFn) : St :=
  { st with trace := st.trace ++ [Eff.invoke fn] }

/-- The lab settings `process_insert` reads from `get_lab_info`'s result. -/
structure LabInfo where
  ssm_base_path : String
  group_names : List String
  namespace_roles : List (String × String)
  user_ns : Bool
  pre_lambda : Option String

/-- Execution environment: outcomes of the external collaborators.

`envOK` models the line-72 check that `CREATE_NAMESPACE_LAMBDA`,
`CREATE_USER_LAMBDA` and `LAB_CONFIGURATION_TABLE` are all set.
`get_lab_info` stands for the outcome of the lab-configuration lookup
(its definition is not among the repository's source files; the worker
only consumes its returned fields, which is all the claims need).
The four `*Resp` fields are the outcomes of `invoke_lambda` on the
corresponding function: a raised transport error or the parsed payload. -/
structure Env where
  envOK : Bool
  get_lab_info : String → Except Err LabInfo
  nsResp : Except Err ActionResult
  userResp : Except Err ActionResult
  removeUserResp : Except Err ActionResult
  removeNamespaceResp : Except Err ActionResult

/-- `invoke_lambda` wraps any exception in
`RuntimeError(f"Failed to invoke Lambda '{name}': {e}")`. -/
def invokeWrap (e : Err) : Err :=
  .runtimeError ("Failed to invoke Lambda: " ++ errStr e)

/-- One DynamoDB-stream record as consumed by the worker:
`eventName`, `record["dynamodb"]["NewImage"]`, `record["dynamodb"]["Keys"]`. -/
structure StreamRecord where
  eventName : String
  newImage : Option Item
  keys : Option Item

/-- `str(b)` for a Python bool. -/
def pyBoolStr (b : Bool) : String := if b then "True" else "False"

/-- The `try:` body of `process_insert` after `depID` is bound (lines 62-123):
extract the remaining fields, mark `deployment_status` `IN_PROGRESS`, check
required environment variables, fetch the lab settings, run the namespace
step when `user_ns`, run the user step, persist the `created_namespace` /
`created_user` flags. Exceptions bubble to the caller with the state at the
point they were raised. -/
def insertTry (env : Env) (new_image : Item) (depID : String) (st : St) :
    Except Err Unit × St :=
  match getSE new_image "labID" with
  | .error e => (.error e, st)
  | .ok labID =>
  match getSE new_image "email" with
  | .error e => (.error e, st)
  | .ok email =>
  match getSE new_image "petname" with
  | .error e => (.error e, st)
  | .ok petname =>
  let st := doWrite st depID "deployment_status" "IN_PROGRESS" (some "Starting deployment")
  if ¬ env.envOK then
    (.error (.runtimeError "Missing required environment variables."), st)
  else
  match env.get_lab_info labID with
  | .error e => (.error e, st)
  | .ok lab_info =>
  -- Step 1: Create Namespace (if applicable)
  let step1 : Except Err (Bool × List (String × String)) × St :=
    if lab_info.user_ns then
      let st := doWrite st depID "create_namespace" "IN_PROGRESS" (some "Creating namespace")
      let st := doInvoke st .createNamespace
      match env.nsResp with
      | .error e => (.error (invokeWrap e), st)
      | .ok namespace_response =>
        if namespace_response.statusCode = some 200 then
          (.ok (true, lab_info.namespace_roles ++ [(petname, "ves-io-admin")]),
            doWrite st depID "create_namespace" "SUCCESS" namespace_response.body)
        else
          (.ok (false, lab_info.namespace_roles),
            doWrite st depID "create_namespace" "FAILED" namespace_response.body)
    else (.ok (false, lab_info.namespace_roles), st)
  match step1 with
  | (.error e, st) => (.error e, st)
  | (.ok (created_namespace, _namespace_roles), st) =>
  -- Step 2: Create User
  let st := doWrite st depID "create_user" "IN_PROGRESS" (some "Creating user")
  let st := doInvoke st .createUser
  match env.userResp with
  | .error e => (.error (invokeWrap e), st)
  | .ok user_response =>
  let r :=
    if user_response.statusCode = some 200 then
      (true, doWrite st depID "create_user" "SUCCESS" user_response.body)
    else
      (false, doWrite st depID "create_user" "FAILED" user_response.body)
  let created_user := r.1
  let st := r.2
  -- Store flags in deployment state
  let st := doWrite st depID "created_namespace" (pyBoolStr created_namespace) none
  let st := doWrite st depID "created_user" (pyBoolStr created_user) none
  (.ok (), st)

/-- `process_insert(record)`: extract `depID`; run the body; on any exception
with `depID` bound, write `deployment_status = FAILED` with `str(e)` and
re-raise. When extracting `depID` itself fails, the `except` block's own
reference to `depID` raises `NameError`/`UnboundLocalError` before anything
is written, so nothing is recorded. -/
def process_insert (env : Env) (record : StreamRecord) (st : St) :
    Except Err Unit × St :=
  match record.newImage with
  | none => (.error (.nameError "depID"), st)
  | some new_image =>
  match getSE new_image "depID" with
  | .error _ => (.error (.nameError "depID"), st)
  | .ok depID =>
  match insertTry env new_image depID st with
  | (.ok (), st) => (.ok (), st)
  | (.error e, st) =>
      (.error e, doWrite st depID "deployment_status" "FAILED" (some (errStr e)))

/-- The `try:` body of `process_remove` after `depID` is bound (lines 135-153):
`get_item(...).get("Item", {})`, read the `created_user` / `created_namespace`
flags, conditionally remove the user and the namespace, then mark
`cleanup_status = COMPLETED`. -/
def removeTry (env : Env) (depID : String) (st : St) : Except Err Unit × St :=
  let item := (lookupStore st.store depID).getD []
  let created_namespace : Bool := getS item "created_namespace" = some "True"
  let created_user : Bool := getS item "created_user" = some "True"
  let step1 : Except Err Unit × St :=
    if created_user then
      let st := doWrite st depID "cleanup_status" "IN_PROGRESS" (some "Removing user")
      match getSE item "ssm_base_path" with
      | .error e => (.error e, st)
      | .ok _ =>
      match getSE item "email" with
      | .error e => (.error e, st)
      | .ok _ =>
      let st := doInvoke st .removeUser
      match env.removeUserResp with
      | .error e => (.error (invokeWrap e), st)
      | .ok _ => (.ok (), st)
    else (.ok (), st)
  match step1 with
  | (.error e, st) => (.error e, st)
  | (.ok (), st) =>
  let step2 : Except Err Unit × St :=
    if created_namespace then
      let st := doWrite st depID "cleanup_status" "IN_PROGRESS" (some "Removing namespace")
      match getSE item "ssm_base_path" with
      | .error e => (.error e, st)
      | .ok _ =>
      match getSE item "petname" with
      | .error e => (.error e, st)
      | .ok _ =>
      let st := doInvoke st .removeNamespace
      match env.removeNamespaceResp with
      | .error e => (.error (invokeWrap e), st)
      | .ok _ => (.ok (), st)
    else (.ok (), st)
  match step2 with
  | (.error e, st) => (.error e, st)
  | (.ok (), st) =>
  (.ok (), doWrite st depID "cleanup_status" "COMPLETED" (some "Cleanup completed successfully"))

/-- `process_remove(record)`: extract `depID` from `record["dynamodb"]["Keys"]`;
run the body; on any exception with `depID` bound, write
`cleanup_status = FAILED` with `str(e)` and re-raise. When extracting `depID`
fails, the `except` block's reference to `depID` raises before any write. -/
def process_remove (env : Env) (record : StreamRecord) (st : St) :
    Except Err Unit × St :=
  match record.keys with
  | none => (.error (.nameError "depID"), st)
  | some ks =>
  match getSE ks "depID" with
  | .error _ => (.error (.nameError "depID"), st)
  | .ok depID =>
  match removeTry env depID st with
  | (.ok (), st) => (.ok (), st)
  | (.error e, st) =>
      (.error e, doWrite st depID "cleanup_status" "FAILED" (some (errStr e)))

/-- `lambda_handler(event, context)`: process the records of the batch in
order; `INSERT` dispatches to `process_insert`, `REMOVE` to `process_remove`,
anything else is skipped; an uncaught exception aborts the rest of the batch. -/
def lambda_handler (env : StreamRecord → Env) :
    List StreamRecord → St → Except Err Unit × St
  | [], st => (.ok (), st)
  | r :: rs, st =>
    let step : Except Err Unit × St :=
      if r.eventName = "INSERT" then process_insert (env r) r st
      else if r.eventName = "REMOVE" then process_remove (env r) r st
      else (.ok (), st)
    match step with
    | (.ok (), st) => lambda_handler env rs st
    | (.error e, st) => (.error e, st)

/-! ### `_run_with_auth_retry` (src/udf_helpers/cailab-post/function.py, lines 95-131) -/

/-- What one probe invocation (`request_fn(...)`) yields: an HTTP response
(status code and text) or a raised `requests.RequestException`. -/
inductive ProbeOutcome where
  | resp (statusCode : Int) (text : String)
  | transportError (msg : String)
deriving DecidableEq, Repr

/-- What `last_error` can hold: the "Auth not ready" `RuntimeError` built for
a 401/403 response, or a caught `requests.RequestException`. -/
inductive RLast where
  | authNotReady (code : Int) (text : String)
  | transport (msg : String)
deriving DecidableEq, Repr

/-- The exceptions `_run_with_auth_retry` raises. -/
inductive RErr where
  | actionFailed (code : Int) (text : String)
  | retryExhausted (maxAttempts : Nat) (last : Option RLast)
deriving DecidableEq, Repr

/-- One observable retry event: a probe invocation or a `time.sleep`. -/
inductive RetryEv where
  | attempt
  | sleep
deriving DecidableEq, Repr

/-- `success_statuses or {200}`: `None` and the empty set are falsy. -/
def allowedSuccesses (success_statuses : Option (List Int)) : List Int :=
  match success_statuses with
  | some l => if l.isEmpty then [200] else l
  | none => [200]

/-- The `for attempt in range(1, max_attempts + 1)` loop, recursing on the
number of remaining iterations (`remaining = max_attempts - attempt + 1`;
`attempt < max_attempts` iff `remaining > 0` after consuming one).
Returns the loop's outcome together with the sequence of retry events. -/
def retryLoop (probe : Nat → ProbeOutcome) (allowed : List Int) (max_attempts : Nat) :
    Nat → Nat → Option RLast → Except RErr Unit × List RetryEv
  | 0, _, last_error => (.error (.retryExhausted max_attempts last_error), [])
  | remaining + 1, attempt, _ =>
    match probe attempt with
    | .resp code text =>
      if allowed.contains code then (.ok (), [.attempt])
      else if ¬ (code = 401 ∨ code = 403) then
        (.error (.actionFailed code text), [.attempt])
      else
        let last_error := some (RLast.authNotReady code text)
        let rest := retryLoop probe allowed max_attempts remaining (attempt + 1) last_error
        if remaining = 0 then (rest.1, .attempt :: rest.2)
        else (rest.1, .attempt :: .sleep :: rest.2)
    | .transportError msg =>
      let last_error := some (RLast.transport msg)
      let rest := retryLoop probe allowed max_attempts remaining (attempt + 1) last_error
      if remaining = 0 then (rest.1, .attempt :: rest.2)
      else (rest.1, .attempt :: .sleep :: rest.2)

/-- `_run_with_auth_retry(request_fn, ..., max_attempts, success_statuses)`:
invoke the probe up to `max_attempts` times (attempt numbers starting at 1);
return on a status in the success set; raise immediately on a status outside
`{401, 403}`; otherwise record `last_error`, sleep unless this was the last
attempt, and retry; after the last attempt raise the terminal error wrapping
`last_error`. -/
def run_with_auth_retry (probe : Nat → ProbeOutcome)
    (success_statuses : Option (List Int)) (max_attempts : Nat) :
    Except RErr Unit × List RetryEv :=
  retryLoop probe (allowedSuccesses success_statuses) max_attempts max_attempts 1 none

/-! ### Helper lemmas about the store -/

theorem lookupA_setAttr_self (it : Item) (k : String) (v : AttrVal) :
    lookupA (setAttr it k v) k = some v := by
  induction it with
  | nil => simp [setAttr, lookupA]
  | cons p rest ih =>
    obtain ⟨k2, v2⟩ := p
    by_cases h : k2 = k <;> simp [setAttr, lookupA, h, ih]

theorem lookupA_setAttr_ne (it : Item) {k2 k : String} (v : AttrVal) (h : k2 ≠ k) :
    lookupA (setAttr it k2 v) k = lookupA it k := by
  induction it with
  | nil => simp [setAttr, lookupA, h]
  | cons p rest ih =>
    obtain ⟨k3, v3⟩ := p
    by_cases h2 : k3 = k2 <;> by_cases h3 : k3 = k <;> simp_all [setAttr, lookupA]

theorem lookupStore_setStore_self (s : Store) (d : String) (it : Item) :
    lookupStore (setStore s d it) d = some it := by
  induction s with
  | nil => simp [setStore, lookupStore]
  | cons p rest ih =>
    obtain ⟨d2, it2⟩ := p
    by_cases h : d2 = d <;> simp [setStore, lookupStore, h, ih]

theorem lookupStore_setStore_ne (s : Store) {d2 d : String} (it : Item) (h : d2 ≠ d) :
    lookupStore (setStore s d2 it) d = lookupStore s d := by
  induction s with
  | nil => simp [setStore, lookupStore, h]
  | cons p rest ih =>
    obtain ⟨d3, it3⟩ := p
    by_cases h2 : d3 = d2 <;> by_cases h3 : d3 = d <;> simp_all [setStore, lookupStore]

theorem getS_setAttr_S_self (it : Item) (k s : String) :
    getS (setAttr it k (.S s)) k = some s := by
  simp [getS, lookupA_setAttr_self]

theorem getS_setAttr_ne (it : Item) {k2 k : String} (v : AttrVal) (h : k2 ≠ k) :
    getS (setAttr it k2 v) k = getS it k := by
  simp [getS, lookupA_setAttr_ne it v h]

/-- After `update_deployment_state`, the written step attribute holds the
written status (for step names distinct from the bookkeeping attributes). -/
theorem getSrec_update_self (s : Store) (now : Nat) (d step status : String)
    (dt : Option String) (h1 : step ≠ "updated_at") (h2 : step ≠ "details") :
    getSrec (update_deployment_state s now d step status dt) d step = some status := by
  unfold update_deployment_state getSrec
  cases dt with
  | none =>
      simp [lookupStore_setStore_self, getS_setAttr_ne _ _ (Ne.symm h1), getS_setAttr_S_self]
  | some x =>
      by_cases hx : x = "" <;>
        simp [lookupStore_setStore_self, hx, getS_setAttr_ne _ _ (Ne.symm h1),
          getS_setAttr_ne _ _ (Ne.symm h2), getS_setAttr_S_self]

/-- `update_deployment_state` leaves unrelated string attributes of the same
record unchanged. -/
theorem getSrec_update_other (s : Store) (now : Nat) (d step status : String)
    (dt : Option String) {k : String} (h1 : k ≠ step) (h2 : k ≠ "updated_at")
    (h3 : k ≠ "details") :
    getSrec (update_deployment_state s now d step status dt) d k = getSrec s d k := by
  unfold update_deployment_state getSrec
  cases dt with
  | none =>
      simp [lookupStore_setStore_self, getS_setAttr_ne _ _ (Ne.symm h2),
        getS_setAttr_ne _ _ (Ne.symm h1)]
  | some x =>
      by_cases hx : x = "" <;>
        simp [lookupStore_setStore_self, hx, getS_setAttr_ne _ _ (Ne.symm h2),
          getS_setAttr_ne _ _ (Ne.symm h1), getS_setAttr_ne _ _ (Ne.symm h3)]

/-! ### Concrete fixtures for witnesses and counterexamples -/

/-- A lab configuration with `user_ns = true`. -/
def liA : LabInfo :=
  { ssm_base_path := "/tenantOps/lab"
    group_names := ["g"]
    namespace_roles := [("shared", "viewer")]
    user_ns := true
    pre_lambda := none }

/-- An environment where every collaborator succeeds with status 200. -/
def envA : Env :=
  { envOK := true
    get_lab_info := fun _ => .ok liA
    nsResp := .ok ⟨some 200, some "nsok"⟩
    userResp := .ok ⟨some 200, some "userok"⟩
    removeUserResp := .ok ⟨some 200, none⟩
    removeNamespaceResp := .ok ⟨some 200, none⟩ }

/-- `{depID:"d1", labID:"l1", email:"a@b.com", petname:"cow"}`. -/
def imgA : Item :=
  [("depID", .S "d1"), ("labID", .S "l1"), ("email", .S "a@b.com"), ("petname", .S "cow")]

/-- The INSERT stream record carrying `imgA`. -/
def recA : StreamRecord := ⟨"INSERT", some imgA, none⟩

/-- An initial run state with an empty deployment-state table. -/
def stEmpty : St := ⟨[], 0, []⟩

/-! ### Claim theorems -/

/-- C1: for every INSERT event carrying `depID`, `labID`, `email`, `petname`
whose lab configuration has `user_ns = true`, if the namespace-creation and
the user-creation action both return `statusCode` 200, then `process_insert`
completes without error and the final deployment record has
`created_namespace = "True"`, `created_user = "True"`, both step statuses
`SUCCESS` (so no unresolved FAILED step), and `deployment_status` left at
`IN_PROGRESS` — the only terminal `deployment_status` the code ever writes is
`FAILED` on an error, so a record with both flags persisted and no `FAILED`
mark is precisely what a completed deployment looks like in the store. -/
theorem C1_insert_both_success (env : Env) (record : StreamRecord) (img : Item)
    (depID labID email petname : String) (li : LabInfo) (b1 b2 : Option String) (st0 : St)
    (himg : record.newImage = some img)
    (hdep : getSE img "depID" = .ok depID)
    (hlab : getSE img "labID" = .ok labID)
    (hem : getSE img "email" = .ok email)
    (hpet : getSE img "petname" = .ok petname)
    (henv : env.envOK = true)
    (hli : env.get_lab_info labID = .ok li)
    (hns : li.user_ns = true)
    (h1 : env.nsResp = .ok ⟨some 200, b1⟩)
    (h2 : env.userResp = .ok ⟨some 200, b2⟩) :
    (process_insert env record st0).1 = .ok () ∧
    getSrec (process_insert env record st0).2.store depID "created_namespace" = some "True" ∧
    getSrec (process_insert env record st0).2.store depID "created_user" = some "True" ∧
    getSrec (process_insert env record st0).2.store depID "create_namespace" = some "SUCCESS" ∧
    getSrec (process_insert env record st0).2.store depID "create_user" = some "SUCCESS" ∧
    getSrec (process_insert env record st0).2.store depID "deployment_status" ≠ some "FAILED" ∧
    getSrec (process_insert env record st0).2.store depID "deployment_status" = some "IN_PROGRESS" := by
  simp only [process_insert, insertTry, himg, hdep, hlab, hem, hpet, henv, hli, hns, h1, h2,
    doWrite, doInvoke, pyBoolStr]
  simp [getSrec_update_self, getSrec_update_other]

/-- C1 witness: the theorem applied to scenario A's concrete record with an
all-success environment. -/
theorem C1_insert_both_success_witness :
    (recA.newImage = some imgA ∧
     getSE imgA "depID" = .ok "d1" ∧
     getSE imgA "labID" = .ok "l1" ∧
     getSE imgA "email" = .ok "a@b.com" ∧
     getSE imgA "petname" = .ok "cow" ∧
     envA.envOK = true ∧
     envA.get_lab_info "l1" = .ok liA ∧
     liA.user_ns = true ∧
     envA.nsResp = .ok ⟨some 200, some "nsok"⟩ ∧
     envA.userResp = .ok ⟨some 200, some "userok"⟩) ∧
    ((process_insert envA recA stEmpty).1 = .ok () ∧
     getSrec (process_insert envA recA stEmpty).2.store "d1" "created_namespace" = some "True" ∧
     getSrec (process_insert envA recA stEmpty).2.store "d1" "created_user" = some "True" ∧
     getSrec (process_insert envA recA stEmpty).2.store "d1" "create_namespace" = some "SUCCESS" ∧
     getSrec (process_insert envA recA stEmpty).2.store "d1" "create_user" = some "SUCCESS" ∧
     getSrec (process_insert envA recA stEmpty).2.store "d1" "deployment_status" ≠ some "FAILED" ∧
     getSrec (process_insert envA recA stEmpty).2.store "d1" "deployment_status" = some "IN_PROGRESS") :=
  ⟨⟨rfl, rfl, rfl, rfl, rfl, rfl, rfl, rfl, rfl, rfl⟩,
   C1_insert_both_success envA recA imgA "d1" "l1" "a@b.com" "cow" liA
     (some "nsok") (some "userok") stEmpty rfl rfl rfl rfl rfl rfl rfl rfl rfl rfl⟩

/-- A REMOVE stream record whose key `dX` has no record in the store. -/
def recRemoveUnknown : StreamRecord := ⟨"REMOVE", none, some [("depID", .S "dX")]⟩

/-- C2 counterexample: a REMOVE event for the unknown `depID` `dX` against an
empty store does NOT fail with a record-not-found condition — `process_remove`
returns successfully — and it does NOT "mark nothing": its only effect is to
upsert a fresh record for `dX` with `cleanup_status = COMPLETED` (it does
invoke no removal action, as the trace shows). This refutes the claim's
"fails" and "writes no record to the store" parts at a concrete input. -/
theorem C2_counterexample :
    (process_remove envA recRemoveUnknown stEmpty).1 = .ok () ∧
    (process_remove envA recRemoveUnknown stEmpty).2.trace =
      [Eff.write "dX" "cleanup_status" "COMPLETED" (some "Cleanup completed successfully")] ∧
    getSrec (process_remove envA recRemoveUnknown stEmpty).2.store "dX" "cleanup_status" =
      some "COMPLETED" :=
  ⟨rfl, rfl, rfl⟩

/-- C2 amended: for every REMOVE event whose `depID` has no record in the
Deployment State Store, the Teardown Workflow does not fail and invokes no
removal action, but instead of marking nothing it upserts a record for that
`depID` with `cleanup_status = COMPLETED` (the code defaults the missing item
to `{}`, reads both created-flags as false, skips both removals, and writes
the final completion mark). -/
theorem C2_remove_unknown_completes (env : Env) (record : StreamRecord) (ks : Item)
    (depID : String) (st0 : St)
    (hk : record.keys = some ks)
    (hdep : getSE ks "depID" = .ok depID)
    (habs : lookupStore st0.store depID = none) :
    (process_remove env record st0).1 = .ok () ∧
    (process_remove env record st0).2.trace =
      st0.trace ++ [Eff.write depID "cleanup_status" "COMPLETED"
        (some "Cleanup completed successfully")] ∧
    getSrec (process_remove env record st0).2.store depID "cleanup_status" =
      some "COMPLETED" := by
  simp only [process_remove, removeTry, hk, hdep, habs, doWrite, doInvoke]
  simp [getS, lookupA, getSrec_update_self]

/-- C2 witness: the amended theorem applied to the concrete unknown-`depID`
REMOVE event. -/
theorem C2_remove_unknown_completes_witness :
    (recRemoveUnknown.keys = some [("depID", AttrVal.S "dX")] ∧
     getSE [("depID", AttrVal.S "dX")] "depID" = .ok "dX" ∧
     lookupStore stEmpty.store "dX" = none) ∧
    ((process_remove envA recRemoveUnknown stEmpty).1 = .ok () ∧
     (process_remove envA recRemoveUnknown stEmpty).2.trace =
       stEmpty.trace ++ [Eff.write "dX" "cleanup_status" "COMPLETED"
         (some "Cleanup completed successfully")] ∧
     getSrec (process_remove envA recRemoveUnknown stEmpty).2.store "dX" "cleanup_status" =
       some "COMPLETED") :=
  ⟨⟨rfl, rfl, rfl⟩,
   C2_remove_unknown_completes envA recRemoveUnknown [("depID", AttrVal.S "dX")] "dX"
     stEmpty rfl rfl rfl⟩

/-- The retry-event sequence of `n` consecutive failed attempts: a sleep
after every attempt except the last. -/
def retryTrace : Nat → List RetryEv
  | 0 => []
  | 1 => [.attempt]
  | n + 2 => .attempt :: .sleep :: retryTrace (n + 1)

/-- When every probe invocation returns status 403, the loop runs all its
remaining iterations, sleeping between attempts, and exhausts wrapping the
last "Auth not ready" error. -/
theorem retryLoop_all403 (probe : Nat → ProbeOutcome) (texts : Nat → String)
    (ma : Nat) (hp : ∀ n, probe n = .resp 403 (texts n)) :
    ∀ (n attempt : Nat) (le : Option RLast),
    retryLoop probe [200] ma (n + 1) attempt le =
      (.error (.retryExhausted ma (some (.authNotReady 403 (texts (attempt + n))))),
       retryTrace (n + 1)) := by
  intro n
  induction n with
  | zero =>
      intro attempt le
      unfold retryLoop
      simp [hp, retryLoop, retryTrace]
  | succ m ih =>
      intro attempt le
      unfold retryLoop
      simp only [hp]
      have harith : attempt + 1 + m = attempt + (m + 1) := by omega
      simp [ih (attempt + 1), retryTrace, harith]

/-- Every iteration of the retry loop begins by invoking the probe: its event
trace starts with an attempt. -/
theorem retryLoop_trace_cons (probe : Nat → ProbeOutcome) (allowed : List Int)
    (ma n a : Nat) (le : Option RLast) :
    ∃ tl, (retryLoop probe allowed ma (n + 1) a le).2 = RetryEv.attempt :: tl := by
  cases hpa : probe a with
  | resp code text =>
      unfold retryLoop
      simp only [hpa]
      split_ifs <;> exact ⟨_, rfl⟩
  | transportError msg =>
      unfold retryLoop
      simp only [hpa]
      split_ifs <;> exact ⟨_, rfl⟩

/-- C3: for every probe whose every invocation returns status 403,
`_run_with_auth_retry` with `max_attempts = 5` invokes the probe exactly
5 times, sleeps exactly 4 times (after every attempt except the last), and
then raises the terminal exhaustion error wrapping the last observed
"Auth not ready" result. -/
theorem C3_retry_exhausted_on_403 (probe : Nat → ProbeOutcome) (texts : Nat → String)
    (hp : ∀ n, probe n = .resp 403 (texts n)) :
    run_with_auth_retry probe none 5 =
      (.error (.retryExhausted 5 (some (.authNotReady 403 (texts 5)))),
       [.attempt, .sleep, .attempt, .sleep, .attempt, .sleep, .attempt, .sleep, .attempt]) ∧
    (run_with_auth_retry probe none 5).2.count .attempt = 5 ∧
    (run_with_auth_retry probe none 5).2.count .sleep = 4 := by
  have h : run_with_auth_retry probe none 5 =
      (.error (.retryExhausted 5 (some (.authNotReady 403 (texts 5)))),
       [.attempt, .sleep, .attempt, .sleep, .attempt, .sleep, .attempt, .sleep, .attempt]) :=
    retryLoop_all403 probe texts 5 hp 4 1 none
  refine ⟨h, ?_, ?_⟩ <;> rw [h] <;> rfl

/-- C3 witness: the theorem applied to the constant-403 probe. -/
theorem C3_retry_exhausted_on_403_witness :
    run_with_auth_retry (fun _ => .resp 403 "denied") none 5 =
      (.error (.retryExhausted 5 (some (.authNotReady 403 "denied"))),
       [.attempt, .sleep, .attempt, .sleep, .attempt, .sleep, .attempt, .sleep, .attempt]) ∧
    (run_with_auth_retry (fun _ => .resp 403 "denied") none 5).2.count .attempt = 5 ∧
    (run_with_auth_retry (fun _ => .resp 403 "denied") none 5).2.count .sleep = 4 :=
  C3_retry_exhausted_on_403 (fun _ => .resp 403 "denied") (fun _ => "denied") (fun _ => rfl)

/-- C4: a probe whose first invocation returns a status outside the success
set and outside `{401, 403}` makes the wrapper fail immediately with the
`ActionFailed` error after exactly one attempt and no sleep, for any
`max_attempts ≥ 1` (remaining attempts are short-circuited); whereas a probe
whose first invocation returns 401 or 403 is retried — a sleep and a second
attempt follow. -/
theorem C4_non_retryable_fails_fast :
    (∀ (probe : Nat → ProbeOutcome) (code : Int) (text : String)
       (ss : Option (List Int)) (ma : Nat),
       probe 1 = .resp code text →
       (allowedSuccesses ss).contains code = false →
       code ≠ 401 → code ≠ 403 → 1 ≤ ma →
       run_with_auth_retry probe ss ma = (.error (.actionFailed code text), [.attempt])) ∧
    (∀ (probe : Nat → ProbeOutcome) (code : Int) (text : String),
       probe 1 = .resp code text → (code = 401 ∨ code = 403) →
       (run_with_auth_retry probe none 5).2.take 3 =
         [RetryEv.attempt, RetryEv.sleep, RetryEv.attempt]) := by
  constructor
  · intro probe code text ss ma hp1 hcode h401 h403 hma
    obtain ⟨k, rfl⟩ : ∃ k, ma = k + 1 := ⟨ma - 1, by omega⟩
    have hmem : code ∉ allowedSuccesses ss := by simpa using hcode
    unfold run_with_auth_retry retryLoop
    simp [hp1, hmem, h401, h403]
  · intro probe code text hp1 hcode
    unfold run_with_auth_retry
    show (retryLoop probe [200] 5 (4 + 1) 1 none).2.take 3 = _
    unfold retryLoop
    simp only [hp1]
    obtain ⟨tl, htl⟩ := retryLoop_trace_cons probe [200] 5 3 2
      (some (RLast.authNotReady code text))
    have h200 : ¬ code = 200 := by rcases hcode with h | h <;> omega
    have hns : ¬ (¬ code = 401 ∧ ¬ code = 403) := by tauto
    simp [h200, hns, htl]

/-- C4 witness: the first part applied to a constant-500 probe, the second
to a constant-401 probe. -/
theorem C4_non_retryable_fails_fast_witness :
    run_with_auth_retry (fun _ => .resp 500 "boom") none 5 =
      (.error (.actionFailed 500 "boom"), [.attempt]) ∧
    (run_with_auth_retry (fun _ => .resp 401 "wait") none 5).2.take 3 =
      [RetryEv.attempt, RetryEv.sleep, RetryEv.attempt] :=
  ⟨C4_non_retryable_fails_fast.1 (fun _ => .resp 500 "boom") 500 "boom" none 5
     rfl rfl (by decide) (by decide) (by decide),
   C4_non_retryable_fails_fast.2 (fun _ => .resp 401 "wait") 401 "wait" rfl (Or.inl rfl)⟩

/-- A stored deployment record whose created-flags are not `"True"`. -/
def itemB : Item :=
  [("created_namespace", .S "False"), ("created_user", .S "False"),
   ("ssm_base_path", .S "/tenantOps/lab"), ("email", .S "a@b.com"),
   ("petname", .S "cow"), ("create_namespace", .S "SUCCESS"),
   ("create_user", .S "SUCCESS")]

/-- A run state whose store holds `itemB` under `d2`. -/
def stB : St := ⟨[("d2", itemB)], 0, []⟩

/-- A REMOVE stream record for `d2`. -/
def recB : StreamRecord := ⟨"REMOVE", none, some [("depID", .S "d2")]⟩

/-- C5: for every REMOVE event whose stored record has `created_namespace`
different from `"True"`, the Teardown Workflow never invokes the
namespace-removal action, regardless of the record's other fields (the step
statuses included); likewise, when `created_user` is not `"True"` the
user-removal action is never invoked. -/
theorem C5_flags_gate_teardown (env : Env) (record : StreamRecord) (ks item : Item)
    (depID : String) (st0 : St)
    (hk : record.keys = some ks)
    (hdep : getSE ks "depID" = .ok depID)
    (hitem : lookupStore st0.store depID = some item) :
    (getS item "created_namespace" ≠ some "True" →
       Eff.invoke .removeNamespace ∉ st0.trace →
       Eff.invoke .removeNamespace ∉ (process_remove env record st0).2.trace) ∧
    (getS item "created_user" ≠ some "True" →
       Eff.invoke .removeUser ∉ st0.trace →
       Eff.invoke .removeUser ∉ (process_remove env record st0).2.trace) := by
  constructor
  · intro hflag hst
    simp only [process_remove, hk, hdep, removeTry, hitem, Option.getD_some]
    by_cases hu : getS item "created_user" = some "True"
    · cases hssm : getSE item "ssm_base_path" with
      | error e => simp_all [doWrite, doInvoke]
      | ok v =>
        cases hem : getSE item "email" with
        | error e => simp_all [doWrite, doInvoke]
        | ok v2 =>
          cases hr : env.removeUserResp <;> simp_all [doWrite, doInvoke]
    · simp_all [doWrite, doInvoke]
  · intro hflag hst
    simp only [process_remove, hk, hdep, removeTry, hitem, Option.getD_some]
    by_cases hn : getS item "created_namespace" = some "True"
    · cases hssm : getSE item "ssm_base_path" with
      | error e => simp_all [doWrite, doInvoke]
      | ok v =>
        cases hpet : getSE item "petname" with
        | error e => simp_all [doWrite, doInvoke]
        | ok v2 =>
          cases hr : env.removeNamespaceResp <;> simp_all [doWrite, doInvoke]
    · simp_all [doWrite, doInvoke]

/-- C5 witness: a stored record with both flags `"False"` (and both step
statuses `SUCCESS`): neither removal action is invoked. -/
theorem C5_flags_gate_teardown_witness :
    (recB.keys = some [("depID", AttrVal.S "d2")] ∧
     getSE [("depID", AttrVal.S "d2")] "depID" = .ok "d2" ∧
     lookupStore stB.store "d2" = some itemB) ∧
    ((getS itemB "created_namespace" ≠ some "True" →
        Eff.invoke .removeNamespace ∉ stB.trace →
        Eff.invoke .removeNamespace ∉ (process_remove envA recB stB).2.trace) ∧
     (getS itemB "created_user" ≠ some "True" →
        Eff.invoke .removeUser ∉ stB.trace →
        Eff.invoke .removeUser ∉ (process_remove envA recB stB).2.trace)) :=
  ⟨⟨rfl, rfl, rfl⟩,
   C5_flags_gate_teardown envA recB [("depID", AttrVal.S "d2")] itemB "d2" stB rfl rfl rfl⟩

/-- An environment identical to `envA` except that the namespace-creation
action returns status 409. -/
def envB : Env := { envA with nsResp := .ok ⟨some 409, some "exists"⟩ }

/-- C6: for every INSERT processing in which the namespace-creation action
returns a non-200 status, the `create_namespace` step is marked `FAILED`
with the action's body as details, the workflow does not abort (the run
returns without error), the user-creation action is still invoked, and the
user step's own outcome — `SUCCESS` or `FAILED` by its own status code, and
the matching `created_user` flag — is recorded independently in the store. -/
theorem C6_ns_failure_isolated (env : Env) (record : StreamRecord) (img : Item)
    (depID labID email petname : String) (li : LabInfo) (nsr ur : ActionResult) (st0 : St)
    (himg : record.newImage = some img)
    (hdep : getSE img "depID" = .ok depID)
    (hlab : getSE img "labID" = .ok labID)
    (hem : getSE img "email" = .ok email)
    (hpet : getSE img "petname" = .ok petname)
    (henv : env.envOK = true)
    (hli : env.get_lab_info labID = .ok li)
    (hns : li.user_ns = true)
    (h1 : env.nsResp = .ok nsr)
    (h200 : nsr.statusCode ≠ some 200)
    (h2 : env.userResp = .ok ur) :
    (process_insert env record st0).1 = .ok () ∧
    Eff.write depID "create_namespace" "FAILED" nsr.body ∈ (process_insert env record st0).2.trace ∧
    Eff.invoke .createUser ∈ (process_insert env record st0).2.trace ∧
    getSrec (process_insert env record st0).2.store depID "create_namespace" = some "FAILED" ∧
    getSrec (process_insert env record st0).2.store depID "create_user" =
      some (if ur.statusCode = some 200 then "SUCCESS" else "FAILED") ∧
    getSrec (process_insert env record st0).2.store depID "created_user" =
      some (pyBoolStr (ur.statusCode = some 200)) := by
  simp only [process_insert, insertTry, himg, hdep, hlab, hem, hpet, henv, hli, hns, h1, h2,
    doWrite, doInvoke, pyBoolStr]
  by_cases hu : ur.statusCode = some 200 <;>
    simp [h200, hu, getSrec_update_self, getSrec_update_other]

/-- C6 witness: scenario with the namespace action returning 409 and the user
action returning 200. -/
theorem C6_ns_failure_isolated_witness :
    (recA.newImage = some imgA ∧
     envB.envOK = true ∧
     envB.get_lab_info "l1" = .ok liA ∧
     liA.user_ns = true ∧
     envB.nsResp = .ok ⟨some 409, some "exists"⟩ ∧
     (some 409 : Option Int) ≠ some 200 ∧
     envB.userResp = .ok ⟨some 200, some "userok"⟩) ∧
    ((process_insert envB recA stEmpty).1 = .ok () ∧
     Eff.write "d1" "create_namespace" "FAILED" (some "exists") ∈
       (process_insert envB recA stEmpty).2.trace ∧
     Eff.invoke .createUser ∈ (process_insert envB recA stEmpty).2.trace ∧
     getSrec (process_insert envB recA stEmpty).2.store "d1" "create_namespace" = some "FAILED" ∧
     getSrec (process_insert envB recA stEmpty).2.store "d1" "create_user" = some "SUCCESS" ∧
     getSrec (process_insert envB recA stEmpty).2.store "d1" "created_user" = some "True") := by
  refine ⟨⟨rfl, rfl, rfl, rfl, rfl, by decide, rfl⟩, ?_⟩
  simpa using C6_ns_failure_isolated envB recA imgA "d1" "l1" "a@b.com" "cow" liA
    ⟨some 409, some "exists"⟩ ⟨some 200, some "userok"⟩ stEmpty
    rfl rfl rfl rfl rfl rfl rfl rfl rfl (by decide) rfl

/-- An INSERT stream record whose NewImage lacks the `depID` attribute. -/
def imgNoDep : Item := [("labID", .S "l1"), ("email", .S "a@b.com"), ("petname", .S "cow")]

/-- The INSERT stream record carrying `imgNoDep`. -/
def recNoDep : StreamRecord := ⟨"INSERT", some imgNoDep, none⟩

/-- C7: evaluation of the code at the failing input. When extracting `depID`
itself fails (here: an INSERT record whose NewImage has no `depID`), the
top-level `except` block's own reference to the unbound local `depID` raises
before `update_deployment_state` can run: the run fails with the handler's
`NameError`, and the store and trace are left exactly as they were — no
`deployment_status = FAILED` record is written, contrary to the claim that
every unexpected error (including field-extraction failures) is recorded in
the store and the original error re-raised. -/
theorem C7_handler_crashes_on_missing_depID :
    (process_insert envA recNoDep stEmpty).1 = .error (.nameError "depID") ∧
    (process_insert envA recNoDep stEmpty).2 = stEmpty :=
  ⟨rfl, rfl⟩

/-- C8 counterexample: calling the update with the provided-but-empty details
string `""` (Python `if details:` is false for `""`) produces a record with
NO `details` attribute at all — the claim's "appends `details` when `details`
is provided" fails at this concrete input. The full resulting record is shown:
only the step attribute and `updated_at` are present. -/
theorem C8_counterexample :
    lookupStore (update_deployment_state [] 7 "d1" "create_user" "SUCCESS" (some "")) "d1" =
      some [("create_user", AttrVal.S "SUCCESS"), ("updated_at", AttrVal.N 7)] :=
  rfl

/-- C8 amended: `update_deployment_state(depID, step, status, details)`
upserts the deployment record if absent, sets attribute `step` to `status`,
sets `updated_at` to the current time, and sets the `details` attribute when
a non-empty details string is provided — a `None` or empty-string `details`
leaves the record's previous `details` untouched (Python truthiness gates the
write). Stated for step names distinct from the bookkeeping attributes
`updated_at` and `details`, which is what every call site uses. -/
theorem C8_update_step (s : Store) (now : Nat) (d step status : String) (dt : Option String)
    (h1 : step ≠ "updated_at") (h2 : step ≠ "details") :
    ∃ item, lookupStore (update_deployment_state s now d step status dt) d = some item ∧
      lookupA item step = some (.S status) ∧
      lookupA item "updated_at" = some (.N now) ∧
      (∀ x, dt = some x → x ≠ "" → lookupA item "details" = some (.S x)) ∧
      ((dt = none ∨ dt = some "") →
        lookupA item "details" = lookupA ((lookupStore s d).getD []) "details") := by
  unfold update_deployment_state
  cases dt with
  | none =>
      refine ⟨_, lookupStore_setStore_self _ _ _, ?_, ?_, ?_, ?_⟩
      · simp [lookupA_setAttr_ne _ _ (Ne.symm h1), lookupA_setAttr_self]
      · simp [lookupA_setAttr_self]
      · intro y hy hne
        simp at hy
      · intro _
        simp [lookupA_setAttr_ne _ _ (show ("updated_at" : String) ≠ "details" by decide),
              lookupA_setAttr_ne _ _ h2]
  | some x =>
      by_cases hx : x = ""
      · subst hx
        simp only [if_pos rfl]
        refine ⟨_, lookupStore_setStore_self _ _ _, ?_, ?_, ?_, ?_⟩
        · simp [lookupA_setAttr_ne _ _ (Ne.symm h1), lookupA_setAttr_self]
        · simp [lookupA_setAttr_self]
        · intro y hy hne
          injection hy with h
          exact absurd h.symm hne
        · intro _
          simp [lookupA_setAttr_ne _ _ (show ("updated_at" : String) ≠ "details" by decide),
                lookupA_setAttr_ne _ _ h2]
      · simp only [if_neg hx]
        refine ⟨_, lookupStore_setStore_self _ _ _, ?_, ?_, ?_, ?_⟩
        · simp [lookupA_setAttr_ne _ _ (Ne.symm h2), lookupA_setAttr_ne _ _ (Ne.symm h1),
                lookupA_setAttr_self]
        · simp [lookupA_setAttr_ne _ _ (show ("details" : String) ≠ "updated_at" by decide),
                lookupA_setAttr_self]
        · intro y hy hne
          injection hy with h
          subst h
          simp [lookupA_setAttr_self]
        · intro hor
          rcases hor with h | h
          · exact absurd h (by simp)
          · injection h with h'
            exact absurd h' hx

/-- C8 witness: the amended theorem applied to a fresh record with a
non-empty details string. -/
theorem C8_update_step_witness :
    (("create_user" : String) ≠ "updated_at" ∧ ("create_user" : String) ≠ "details") ∧
    (∃ item, lookupStore (update_deployment_state [] 7 "d1" "create_user" "SUCCESS"
        (some "All good")) "d1" = some item ∧
      lookupA item "create_user" = some (.S "SUCCESS") ∧
      lookupA item "updated_at" = some (.N 7) ∧
      (∀ x, (some "All good" : Option String) = some x → x ≠ "" →
        lookupA item "details" = some (.S x)) ∧
      (((some "All good" : Option String) = none ∨ (some "All good" : Option String) = some "") →
        lookupA item "details" = lookupA ((lookupStore [] "d1").getD []) "details")) :=
  ⟨⟨by decide, by decide⟩,
   C8_update_step [] 7 "d1" "create_user" "SUCCESS" (some "All good") (by decide) (by decide)⟩

/-! ### C9: per-step forward-only status sequences -/

/-- The `(step, status)` pairs of the store writes in a trace, in order. -/
def traceSS (tr : List Eff) : List (String × String) :=
  tr.filterMap fun e => match e with
    | .write _ step status _ => some (step, status)
    | .invoke _ => none

/-- The sequence of statuses written for one step name. -/
def stepStatuses (tr : List Eff) (σ : String) : List String :=
  (traceSS tr).filterMap fun p => if p.1 = σ then some p.2 else none

/-- Position of a status along `PENDING → IN_PROGRESS → {SUCCESS, FAILED}`. -/
def statusRank (s : String) : Option Nat :=
  if s = "PENDING" then some 0
  else if s = "IN_PROGRESS" then some 1
  else if s = "SUCCESS" then some 2
  else if s = "FAILED" then some 2
  else none

/-- A forward move: staying put, or strictly ascending the status chain.
`SUCCESS → FAILED` (equal rank, different status) is NOT forward, and no
reverse move is. -/
def forwardStep (a b : String) : Bool :=
  (a == b) ||
    (match statusRank a, statusRank b with
     | some ra, some rb => decide (ra < rb)
     | _, _ => false)

/-- Projecting a keyed pair list to one key preserves pairwise forwardness. -/
theorem pairwise_proj {ps : List (String × String)} (σ : String)
    (h : ps.Pairwise (fun a b => a.1 = b.1 → forwardStep a.2 b.2 = true)) :
    (ps.filterMap fun p => if p.1 = σ then some p.2 else none).Pairwise
      (fun a b => forwardStep a b = true) := by
  induction ps with
  | nil => simp
  | cons p rest ih =>
      cases h with
      | cons hp hrest =>
        by_cases hσ : p.1 = σ
        · simp only [List.filterMap_cons, if_pos hσ]
          refine List.Pairwise.cons ?_ (ih hrest)
          intro b hb
          rcases List.mem_filterMap.mp hb with ⟨q, hq, hqe⟩
          by_cases h2 : q.1 = σ
          · simp only [if_pos h2] at hqe
            have := hp q hq (hσ.trans h2.symm)
            rw [← Option.some_inj.mp hqe]
            exact this
          · simp [if_neg h2] at hqe
        · simpa [List.filterMap_cons, if_neg hσ] using ih hrest

/-- In every execution of `process_insert` (all collaborator outcomes, all
records, all initial stores), the write sequence is pairwise forward per
step name. -/
theorem insert_trace_pairwise (env : Env) (record : StreamRecord) (store : Store) (now : Nat) :
    List.Pairwise (fun a b : String × String => a.1 = b.1 → forwardStep a.2 b.2 = true)
      (traceSS ((process_insert env record ⟨store, now, []⟩).2.trace)) := by
  unfold process_insert
  cases himg : record.newImage with
  | none => simp [himg, traceSS]
  | some img =>
  simp only [himg]
  cases hdep : getSE img "depID" with
  | error e => simp [hdep, traceSS]
  | ok depID =>
  simp only [hdep]
  unfold insertTry
  cases hlab : getSE img "labID" with
  | error e => simp [hlab, doWrite, traceSS]
  | ok labID =>
  simp only [hlab]
  cases hem : getSE img "email" with
  | error e => simp [hem, doWrite, traceSS]
  | ok email =>
  simp only [hem]
  cases hpet : getSE img "petname" with
  | error e => simp [hpet, doWrite, traceSS]
  | ok petname =>
  simp only [hpet]
  cases henv : env.envOK with
  | false => simp [henv, doWrite, traceSS] <;> decide
  | true =>
  try simp only [henv]
  cases hli : env.get_lab_info labID with
  | error e => simp [hli, doWrite, traceSS] <;> decide
  | ok li =>
  simp only [hli]
  cases hns : li.user_ns with
  | false =>
    try simp only [hns]
    cases hur : env.userResp with
    | error e => simp [hur, doWrite, doInvoke, traceSS] <;> decide
    | ok ur =>
      by_cases hu : ur.statusCode = some 200 <;>
        simp [hur, hu, doWrite, doInvoke, traceSS, pyBoolStr] <;> decide
  | true =>
  try simp only [hns]
  cases hnr : env.nsResp with
  | error e => simp [hnr, doWrite, doInvoke, traceSS] <;> decide
  | ok nr =>
  simp only [hnr]
  by_cases hn200 : nr.statusCode = some 200 <;>
  · cases hur : env.userResp with
    | error e => simp [hn200, hur, doWrite, doInvoke, traceSS] <;> decide
    | ok ur =>
      by_cases hu : ur.statusCode = some 200 <;>
        simp [hn200, hur, hu, doWrite, doInvoke, traceSS, pyBoolStr] <;> decide

/-- C9: in every execution of the Provisioning Workflow started on an empty
trace, for any single step name, the sequence of statuses written to the
store for that step only moves forward along
`PENDING → IN_PROGRESS → {SUCCESS, FAILED}` — consecutive writes either
repeat the same status or strictly ascend the chain; no reverse transition
(and no `SUCCESS ↔ FAILED` flip) ever occurs. -/
theorem C9_step_statuses_forward (env : Env) (record : StreamRecord)
    (store : Store) (now : Nat) (σ : String) :
    List.Chain' (fun a b => forwardStep a b = true)
      (stepStatuses ((process_insert env record ⟨store, now, []⟩).2.trace) σ) :=
  (pairwise_proj σ (insert_trace_pairwise env record store now)).chain'

/-- A MODIFY stream record (neither INSERT nor REMOVE). -/
def recC : StreamRecord := ⟨"MODIFY", some imgA, some [("depID", .S "d1")]⟩

/-- C10: the Entry Point skips records whose `eventName` is neither
`"INSERT"` nor `"REMOVE"`: processing a batch of just such a record returns
the state unchanged (no store write, no invocation, no trace entry), and
removing such a record from any batch leaves the batch's entire outcome
(result, store, clock, trace) unchanged. -/
theorem C10_non_insert_remove_skipped (env : StreamRecord → Env)
    (xs ys : List StreamRecord) (r : StreamRecord) (st : St)
    (h1 : r.eventName ≠ "INSERT") (h2 : r.eventName ≠ "REMOVE") :
    lambda_handler env [r] st = (.ok (), st) ∧
    lambda_handler env (xs ++ r :: ys) st = lambda_handler env (xs ++ ys) st := by
  constructor
  · simp [lambda_handler, h1, h2]
  · induction xs generalizing st with
    | nil => simp [lambda_handler, h1, h2]
    | cons x xs ih =>
        simp only [List.cons_append, lambda_handler]
        cases hstep : (if x.eventName = "INSERT" then process_insert (env x) x st
                       else if x.eventName = "REMOVE" then process_remove (env x) x st
                       else (.ok (), st)) with
        | mk res st2 =>
          cases res with
          | ok u => cases u; simp [ih]
          | error e => simp

/-- C10 witness: a MODIFY record alone is a no-op, and dropping it from a
batch containing an INSERT and a REMOVE changes nothing. -/
theorem C10_non_insert_remove_skipped_witness :
    (recC.eventName ≠ "INSERT" ∧ recC.eventName ≠ "REMOVE") ∧
    lambda_handler (fun _ => envA) [recC] stEmpty = (.ok (), stEmpty) ∧
    lambda_handler (fun _ => envA) ([recA] ++ recC :: [recB]) stEmpty =
      lambda_handler (fun _ => envA) ([recA] ++ [recB]) stEmpty :=
  ⟨⟨by decide, by decide⟩,
   C10_non_insert_remove_skipped (fun _ => envA) [recA] [recB] recC stEmpty
     (by decide) (by decide)⟩

end Tops
